import Mathlib

/-!
Verification model of the backend core of a custodial crypto staking
platform: the double-entry ledger, balance projection, staking engine,
withdrawal workflow, payout tracking, fraud scoring, deposit scanner and
the two-factor login path.

Modelling conventions:
* arbitrary-precision decimal amounts are modelled as exact rationals;
* timestamps are integer milliseconds since the epoch;
* database rows are structures, tables are lists, and the materialized
  balance projection is a total map from (userId, assetId, chainId) keys
  to a row of four buckets (an absent row behaves as the all-zero row,
  matching the upsert/zero-default reads used throughout the source);
* a database transaction that can throw is an `Except String` value: an
  error discards every staged write, which is exactly the rollback
  semantics of the source's transaction wrapper;
* opaque metadata JSON blobs and human-readable interpolated text that no
  invariant depends on are elided from row types.
-/

namespace CryptoStake

/-- Direction of a ledger entry. -/
inductive LedgerDirection where
  | CREDIT
  | DEBIT
deriving DecidableEq, Repr

/-- Entry types of the append-only ledger journal. -/
inductive LedgerEntryType where
  | DEPOSIT_CONFIRMED
  | STAKE_CREATED
  | UNSTAKE_COMPLETED
  | REWARD_ACCRUED
  | REWARD_CLAIMED
  | WITHDRAWAL_REQUESTED
  | WITHDRAWAL_REJECTED
  | WITHDRAWAL_PAID
  | ADJUSTMENT
  | STAKE_CANCELLED
deriving DecidableEq, Repr

/-- A persisted ledger entry row (metadata blob elided). -/
structure LedgerEntry where
  userId : Option String
  assetId : String
  chainId : String
  entryType : LedgerEntryType
  direction : LedgerDirection
  amount : ℚ
  balanceAfter : Option ℚ
  referenceType : String
  referenceId : String
deriving DecidableEq, Repr

/-- Parameters of `LedgerService.createEntry`. -/
structure CreateLedgerEntryParams where
  userId : Option String
  assetId : String
  chainId : String
  entryType : LedgerEntryType
  direction : LedgerDirection
  amount : ℚ
  referenceType : String
  referenceId : String
deriving DecidableEq, Repr

/-- Predicate selecting the ledger rows of one (userId, assetId, chainId)
tuple, as the `where` clause of `LedgerService.calculateBalance` does. -/
def entryMatches (e : LedgerEntry) (userId assetId chainId : String) : Bool :=
  e.userId == some userId && e.assetId == assetId && e.chainId == chainId

/-- Model of `LedgerService.calculateBalance`: the sum of CREDIT amounts
minus the sum of DEBIT amounts over one tuple's entries. -/
def calculateBalance (ledger : List LedgerEntry) (userId assetId chainId : String) : ℚ :=
  let entries := ledger.filter fun e => entryMatches e userId assetId chainId
  let creditSum := ((entries.filter fun e => e.direction == .CREDIT).map (·.amount)).sum
  let debitSum := ((entries.filter fun e => e.direction == .DEBIT).map (·.amount)).sum
  creditSum - debitSum

/-- Model of `LedgerService.createEntry`: rejects non-positive amounts;
for user-attributed entries computes the running balance and rejects a
DEBIT that would drive it negative; otherwise appends the new row. -/
def createEntry (ledger : List LedgerEntry) (params : CreateLedgerEntryParams) :
    Except String (LedgerEntry × List LedgerEntry) :=
  if params.amount ≤ 0 then
    .error "Ledger entry amount must be positive"
  else
    let balanceAfterE : Except String (Option ℚ) :=
      match params.userId with
      | none => .ok none
      | some uid =>
          let currentBalance := calculateBalance ledger uid params.assetId params.chainId
          match params.direction with
          | .CREDIT => .ok (some (currentBalance + params.amount))
          | .DEBIT =>
          let after := currentBalance - params.amount
          if after < 0 then .error "Insufficient balance for debit"
          else .ok (some after)
    match balanceAfterE with
    | .error msg => .error msg
    | .ok ba =>
        let entry : LedgerEntry :=
          { userId := params.userId
            assetId := params.assetId
            chainId := params.chainId
            entryType := params.entryType
            direction := params.direction
            amount := params.amount
            balanceAfter := ba
            referenceType := params.referenceType
            referenceId := params.referenceId }
        .ok (entry, ledger ++ [entry])

end CryptoStake

namespace CryptoStake

/-- Key of the materialized balance projection. -/
abbrev BalKey := String × String × String

/-- One row of the BalanceCache projection. -/
structure BalRow where
  available : ℚ
  staked : ℚ
  rewardsAccrued : ℚ
  withdrawalsPending : ℚ
deriving DecidableEq, Repr

/-- The all-zero projection row (what an absent row reads as). -/
def BalRow.zero : BalRow := ⟨0, 0, 0, 0⟩

/-- The balance projection as a total map; absent rows are zero rows. -/
abbrev BalanceCache := BalKey → BalRow

/-- Point update of the balance projection. -/
def updateCache (cache : BalanceCache) (k : BalKey) (f : BalRow → BalRow) : BalanceCache :=
  fun k' => if k' = k then f (cache k) else cache k'

/-- Ledger journal together with its materialized balance projection; the
pair every BalanceService operation mutates co-transactionally. -/
structure Bal where
  ledger : List LedgerEntry
  cache : BalanceCache

/-- Model of `BalanceService.reserveForWithdrawal`: check the available
bucket, post a WITHDRAWAL_REQUESTED DEBIT, then move the amount from
available to withdrawalsPending. -/
def reserveForWithdrawal (b : Bal) (userId assetId chainId : String) (amount : ℚ)
    (withdrawalRequestId : String) : Except String Bal :=
  let k : BalKey := (userId, assetId, chainId)
  if (b.cache k).available < amount then
    .error "Insufficient available balance"
  else
    match createEntry b.ledger
        { userId := some userId
          assetId := assetId
          chainId := chainId
          entryType := .WITHDRAWAL_REQUESTED
          direction := .DEBIT
          amount := amount
          referenceType := "WithdrawalRequest"
          referenceId := withdrawalRequestId } with
    | .error msg => .error msg
    | .ok (_, ledger') =>
        .ok { ledger := ledger'
              cache := updateCache b.cache k fun r =>
                { r with
                  available := r.available - amount
                  withdrawalsPending := r.withdrawalsPending + amount } }

/-- Model of `BalanceService.finalizeWithdrawal`: post a WITHDRAWAL_PAID
DEBIT whose amount the source hardcodes to zero (commented there as
already debited during reserve), then clear the pending bucket. -/
def finalizeWithdrawal (b : Bal) (userId assetId chainId : String) (amount : ℚ)
    (withdrawalRequestId : String) : Except String Bal :=
  let k : BalKey := (userId, assetId, chainId)
  match createEntry b.ledger
      { userId := some userId
        assetId := assetId
        chainId := chainId
        entryType := .WITHDRAWAL_PAID
        direction := .DEBIT
        amount := 0
        referenceType := "WithdrawalRequest"
        referenceId := withdrawalRequestId } with
  | .error msg => .error msg
  | .ok (_, ledger') =>
      .ok { ledger := ledger'
            cache := updateCache b.cache k fun r =>
              { r with withdrawalsPending := r.withdrawalsPending - amount } }

/-- Model of `BalanceService.unstakeToBalance`: post an UNSTAKE_COMPLETED
CREDIT for the given amount, then increment available and decrement the
staked bucket by that same amount. -/
def unstakeToBalance (b : Bal) (userId assetId chainId : String) (amount : ℚ)
    (stakePositionId : String) : Except String Bal :=
  let k : BalKey := (userId, assetId, chainId)
  match createEntry b.ledger
      { userId := some userId
        assetId := assetId
        chainId := chainId
        entryType := .UNSTAKE_COMPLETED
        direction := .CREDIT
        amount := amount
        referenceType := "StakePosition"
        referenceId := stakePositionId } with
  | .error msg => .error msg
  | .ok (_, ledger') =>
      .ok { ledger := ledger'
            cache := updateCache b.cache k fun r =>
              { r with
                available := r.available + amount
                staked := r.staked - amount } }

/-- Number of ledger entries of a given type referencing a given row. -/
def countEntries (ledger : List LedgerEntry) (t : LedgerEntryType) (refId : String) : ℕ :=
  (ledger.filter fun e => e.entryType == t && e.referenceId == refId).length

end CryptoStake

namespace CryptoStake

/-- User roles. -/
inductive Role where
  | USER
  | SUPPORT
  | ADMIN
  | SUPER_ADMIN
deriving DecidableEq, Repr

/-- A user row (fields the modelled operations read). -/
structure User where
  id : String
  email : String
  passwordHash : String
  role : Role
  emailVerified : Bool
  twoFactorEnabled : Bool
  isActive : Bool
  createdAt : ℤ
  lastLoginAt : Option ℤ
  dailyWithdrawalLimit : ℚ
deriving DecidableEq, Repr

/-- An asset row (joined chain relation flattened into chainId). -/
structure Asset where
  id : String
  chainId : String
  symbol : String
  decimals : ℕ
  contractAddress : Option String
  isNative : Bool
  isActive : Bool
  priceUsd : ℚ
deriving DecidableEq, Repr

/-- An address-whitelist row. -/
structure WhitelistRow where
  userId : String
  chainId : String
  address : String
  label : Option String
  cooldownEndsAt : ℤ
deriving DecidableEq, Repr

/-- Fraud indicator categories of `FraudService`. -/
inductive FraudIndicatorType where
  | NEW_ADDRESS
  | HIGH_AMOUNT
  | VELOCITY
  | SUSPICIOUS_PATTERN
deriving DecidableEq, Repr

/-- Fraud indicator severities. -/
inductive FraudSeverity where
  | LOW
  | MEDIUM
  | HIGH
deriving DecidableEq, Repr

/-- One fraud indicator (interpolated detail text elided from the
descriptions, which no rule reads back). -/
structure FraudIndicator where
  type : FraudIndicatorType
  severity : FraudSeverity
  description : String
  score : ℤ
deriving DecidableEq, Repr

/-- Security thresholds the FraudService reads from configuration, with
the source's fallback defaults. -/
structure FraudConfig where
  newAddressCooldownHours : ℤ := 24
  dailyWithdrawalLimitUsd : ℚ := 10000
  largeWithdrawalThresholdUsd : ℚ := 5000
  maxDailyWithdrawalRequests : ℤ := 5
deriving DecidableEq, Repr

/-- Withdrawal request statuses. -/
inductive WithdrawalStatus where
  | PENDING_REVIEW
  | APPROVED
  | REJECTED
  | PROCESSING
  | SENT
  | CONFIRMING
  | CONFIRMED
  | COMPLETED
  | PAID_MANUALLY
  | FAILED
deriving DecidableEq, Repr

/-- Printable status name, used in guard error messages. -/
def WithdrawalStatus.name : WithdrawalStatus → String
  | .PENDING_REVIEW => "PENDING_REVIEW"
  | .APPROVED => "APPROVED"
  | .REJECTED => "REJECTED"
  | .PROCESSING => "PROCESSING"
  | .SENT => "SENT"
  | .CONFIRMING => "CONFIRMING"
  | .CONFIRMED => "CONFIRMED"
  | .COMPLETED => "COMPLETED"
  | .PAID_MANUALLY => "PAID_MANUALLY"
  | .FAILED => "FAILED"

/-- A withdrawal request row. -/
structure WithdrawalRequest where
  id : String
  userId : String
  assetId : String
  chainId : String
  amount : ℚ
  fee : ℚ
  netAmount : ℚ
  destinationAddress : String
  status : WithdrawalStatus
  userNotes : Option String
  adminNotes : Option String
  reviewedBy : Option String
  reviewedAt : Option ℤ
  manualProofUrl : Option String
  manualProofNotes : Option String
  idempotencyKey : String
  fraudScore : ℤ
  fraudIndicators : List FraudIndicator
  createdAt : ℤ
deriving DecidableEq, Repr

/-- Map over the rows a predicate selects, leaving the rest unchanged
(the shape of a keyed UPDATE). -/
def updateWhere (l : List α) (p : α → Bool) (f : α → α) : List α :=
  l.map fun x => if p x then f x else x

/-- Tables the FraudService reads: whitelist, assets, users and the
existing withdrawal requests, plus its configured thresholds. -/
structure FraudSt where
  whitelist : List WhitelistRow
  assets : List Asset
  users : List User
  requests : List WithdrawalRequest
  cfg : FraudConfig

/-- Model of `FraudService.checkNewAddress`: no whitelist row yields the
MEDIUM/30 indicator; a row still in cooldown yields the HIGH/50 one. -/
def checkNewAddress (st : FraudSt) (userId address chainId : String) (now : ℤ) :
    Option FraudIndicator :=
  match st.whitelist.find? (fun w =>
      w.userId == userId && w.chainId == chainId && w.address == address.toLower) with
  | none =>
      some { type := .NEW_ADDRESS, severity := .MEDIUM
             description := "First-time withdrawal to this address", score := 30 }
  | some whitelisted =>
      if now < whitelisted.cooldownEndsAt then
        some { type := .NEW_ADDRESS, severity := .HIGH
               description := "Address in cooldown", score := 50 }
      else
        none

/-- Model of `FraudService.checkLargeAmount`: USD value above the large
threshold scores 20 (MEDIUM) or, above the daily USD limit, 40 (HIGH). -/
def checkLargeAmount (st : FraudSt) (amount : ℚ) (assetId : String) :
    Option FraudIndicator :=
  match st.assets.find? (·.id == assetId) with
  | none => none
  | some asset =>
      let usdValue := amount * asset.priceUsd
      if st.cfg.largeWithdrawalThresholdUsd < usdValue then
        if st.cfg.dailyWithdrawalLimitUsd < usdValue then
          some { type := .HIGH_AMOUNT, severity := .HIGH
                 description := "Large withdrawal", score := 40 }
        else
          some { type := .HIGH_AMOUNT, severity := .MEDIUM
                 description := "Large withdrawal", score := 20 }
      else
        none

/-- Model of `FraudService.checkVelocity`: counts this user's requests in
the trailing 24 hours against the configured maximum. -/
def checkVelocity (st : FraudSt) (userId : String) (now : ℤ) : Option FraudIndicator :=
  let oneDayAgo := now - 24 * 60 * 60 * 1000
  let recentRequests : ℤ :=
    (st.requests.filter fun w => w.userId == userId && oneDayAgo ≤ w.createdAt).length
  if st.cfg.maxDailyWithdrawalRequests ≤ recentRequests then
    some { type := .VELOCITY, severity := .HIGH
           description := "Too many withdrawal requests in last 24h", score := 40 }
  else if (7 : ℚ) / 10 * st.cfg.maxDailyWithdrawalRequests ≤ (recentRequests : ℚ) then
    some { type := .VELOCITY, severity := .MEDIUM
           description := "Many withdrawal requests in last 24h", score := 20 }
  else
    none

/-- Model of `FraudService.checkDailyLimit`: sums the USD value of the
user's non-rejected, non-failed requests of the trailing 24 hours plus
the new one against the user's own daily limit. -/
def checkDailyLimit (st : FraudSt) (userId : String) (newAmount : ℚ) (assetId : String)
    (now : ℤ) : Option FraudIndicator :=
  let oneDayAgo := now - 24 * 60 * 60 * 1000
  match st.assets.find? (·.id == assetId) with
  | none => none
  | some asset =>
      match st.users.find? (·.id == userId) with
      | none => none
      | some user =>
          let recentWithdrawals := st.requests.filter fun w =>
            w.userId == userId && oneDayAgo ≤ w.createdAt &&
              !(w.status == .REJECTED) && !(w.status == .FAILED)
          let totalUsd := (recentWithdrawals.map fun w =>
            w.amount * ((st.assets.find? (·.id == w.assetId)).map (·.priceUsd)).getD 0).sum
          let newTotalUsd := totalUsd + newAmount * asset.priceUsd
          if user.dailyWithdrawalLimit < newTotalUsd then
            some { type := .HIGH_AMOUNT, severity := .HIGH
                   description := "Exceeds daily limit", score := 50 }
          else
            none

/-- Model of `FraudService.checkPatterns`: an account younger than 7 days
yields the MEDIUM/25 indicator; otherwise an unverified email yields the
LOW/15 one; the two early returns make the outcomes mutually exclusive. -/
def checkPatterns (st : FraudSt) (userId : String) (now : ℤ) : Option FraudIndicator :=
  match st.users.find? (·.id == userId) with
  | none => none
  | some user =>
      let accountAgeDays : ℚ := ((now - user.createdAt : ℤ) : ℚ) / (24 * 60 * 60 * 1000)
      if accountAgeDays < 7 then
        some { type := .SUSPICIOUS_PATTERN, severity := .MEDIUM
               description := "New account", score := 25 }
      else if !user.emailVerified then
        some { type := .SUSPICIOUS_PATTERN, severity := .LOW
               description := "Email not verified", score := 15 }
      else
        none

/-- Parameters of `FraudService.analyzeWithdrawalRequest`. -/
structure AnalyzeParams where
  userId : String
  destinationAddress : String
  amount : ℚ
  assetId : String
  chainId : String

/-- Result of a fraud analysis. -/
structure FraudAnalysis where
  indicators : List FraudIndicator
  totalScore : ℤ
deriving DecidableEq, Repr

/-- Model of `FraudService.analyzeWithdrawalRequest`: runs the five checks
in source order, collects the indicators that fire, and totals their
scores. -/
def analyzeWithdrawalRequest (st : FraudSt) (p : AnalyzeParams) (now : ℤ) : FraudAnalysis :=
  let checks : List (Option FraudIndicator) :=
    [ checkNewAddress st p.userId p.destinationAddress p.chainId now
    , checkLargeAmount st p.amount p.assetId
    , checkVelocity st p.userId now
    , checkDailyLimit st p.userId p.amount p.assetId now
    , checkPatterns st p.userId now ]
  let indicators := checks.filterMap id
  { indicators := indicators
    totalScore := (indicators.map (·.score)).sum }

/-- Model of `FraudService.addToWhitelist`: upsert keyed on
(userId, chainId, lowercased address); an existing row keeps its cooldown
and only refreshes the label, a new row gets `now` + the configured
cooldown. -/
def addToWhitelist (st : FraudSt) (userId chainId address : String) (label : Option String)
    (now : ℤ) : List WhitelistRow :=
  let addr := address.toLower
  let keyMatch (w : WhitelistRow) : Bool :=
    w.userId == userId && w.chainId == chainId && w.address == addr
  if st.whitelist.any keyMatch then
    updateWhere st.whitelist keyMatch fun w => { w with label := label }
  else
    st.whitelist ++
      [{ userId := userId, chainId := chainId, address := addr, label := label
         cooldownEndsAt := now + st.cfg.newAddressCooldownHours * 60 * 60 * 1000 }]

/-- Persistent state the withdrawals API acts on. -/
structure ApiState where
  requests : List WithdrawalRequest
  bal : Bal
  whitelist : List WhitelistRow
  assets : List Asset
  users : List User
  cfg : FraudConfig

/-- The FraudService's read view of an `ApiState`. -/
def ApiState.fraudSt (st : ApiState) : FraudSt :=
  { whitelist := st.whitelist, assets := st.assets, users := st.users
    requests := st.requests, cfg := st.cfg }

/-- Parameters of `WithdrawalsService.createRequest`. -/
structure CreateRequestParams where
  assetId : String
  chainId : String
  amount : ℚ
  destinationAddress : String
  userNotes : Option String
  idempotencyKey : String

/-- Model of `WithdrawalsService.createRequest`: an existing row with the
same idempotencyKey is returned as-is; otherwise validate the asset,
compute fee and net amount, check the balance, run fraud analysis, add
the destination to the whitelist, insert the request and reserve its
amount.  `newId` stands in for the database-generated row id. -/
def createRequest (st : ApiState) (userId : String) (params : CreateRequestParams)
    (now : ℤ) (newId : String) : Except String (WithdrawalRequest × ApiState) :=
  match st.requests.find? (·.idempotencyKey == params.idempotencyKey) with
  | some existing => .ok (existing, st)
  | none =>
      let amount := params.amount
      match st.assets.find? (·.id == params.assetId) with
      | none => .error "Asset not found"
      | some asset =>
          if !asset.isActive then
            .error "Asset is not available for withdrawal"
          else
            let feePercent : ℚ := 1 / 1000
            let minFee : ℚ := 1 / 10000
            let fee := max (amount * feePercent) minFee
            let netAmount := amount - fee
            if netAmount ≤ 0 then
              .error "Amount too small after fees"
            else
              let k : BalKey := (userId, params.assetId, params.chainId)
              if (st.bal.cache k).available < amount then
                .error "Insufficient available balance"
              else
                let fraudAnalysis := analyzeWithdrawalRequest st.fraudSt
                  { userId := userId
                    destinationAddress := params.destinationAddress
                    amount := amount
                    assetId := params.assetId
                    chainId := params.chainId } now
                let whitelist' := addToWhitelist st.fraudSt userId params.chainId
                  params.destinationAddress none now
                let request : WithdrawalRequest :=
                  { id := newId
                    userId := userId
                    assetId := params.assetId
                    chainId := params.chainId
                    amount := amount
                    fee := fee
                    netAmount := netAmount
                    destinationAddress := params.destinationAddress.toLower
                    status := .PENDING_REVIEW
                    userNotes := params.userNotes
                    adminNotes := none
                    reviewedBy := none
                    reviewedAt := none
                    manualProofUrl := none
                    manualProofNotes := none
                    idempotencyKey := params.idempotencyKey
                    fraudScore := fraudAnalysis.totalScore
                    fraudIndicators := fraudAnalysis.indicators
                    createdAt := now }
                match reserveForWithdrawal st.bal userId params.assetId params.chainId
                    amount request.id with
                | .error msg => .error msg
                | .ok bal' =>
                    .ok (request,
                      { st with
                        requests := st.requests ++ [request]
                        bal := bal'
                        whitelist := whitelist' })

/-- Model of `WithdrawalsService.markPaidManually`: guard the status, set
the request PAID_MANUALLY with review metadata, then finalize (which
posts the WITHDRAWAL_PAID entry and clears the pending bucket); an error
anywhere rolls the whole transaction back. -/
def markPaidManually (st : ApiState) (requestId adminId : String)
    (proofUrl : Option String) (adminNotes : String) (now : ℤ) :
    Except String (WithdrawalRequest × ApiState) :=
  match st.requests.find? (·.id == requestId) with
  | none => .error "Withdrawal request not found"
  | some request =>
      if !(request.status == .PENDING_REVIEW || request.status == .APPROVED ||
           request.status == .FAILED) then
        .error ("Cannot mark as paid manually in status: " ++ request.status.name)
      else
        let updated := { request with
          status := .PAID_MANUALLY
          reviewedBy := some adminId
          reviewedAt := some now
          manualProofUrl := proofUrl
          manualProofNotes := some adminNotes
          adminNotes := some adminNotes }
        match finalizeWithdrawal st.bal request.userId request.assetId request.chainId
            request.amount requestId with
        | .error msg => .error msg
        | .ok bal' =>
            .ok (updated,
              { st with
                requests := updateWhere st.requests (·.id == requestId) (fun _ => updated)
                bal := bal' })

end CryptoStake

namespace CryptoStake

/-- Payout transaction statuses. -/
inductive PayoutStatus where
  | PENDING
  | SENT
  | CONFIRMING
  | CONFIRMED
  | FAILED
deriving DecidableEq, Repr

/-- A payout transaction row. -/
structure PayoutTx where
  id : String
  withdrawalRequestId : String
  txHash : Option String
  status : PayoutStatus
  confirmations : ℤ
  gasUsed : Option ℤ
  errorMessage : Option String
  confirmedAt : Option ℤ
deriving DecidableEq, Repr

/-- An on-chain transaction receipt (`statusCode` 0 means reverted). -/
structure Receipt where
  statusCode : ℤ
  blockNumber : ℤ
  gasUsed : ℤ
deriving DecidableEq, Repr

/-- State the payout status checker acts on: the payout row, its
withdrawal request, the ledger, the projection, and a notification
counter. -/
structure PayoutCheckState where
  payoutTx : PayoutTx
  request : WithdrawalRequest
  ledger : List LedgerEntry
  cache : BalanceCache
  notifications : ℕ

/-- Model of the payout worker's `checkPayoutStatus`: returns the state
after the call together with the error it throws to trigger a retry, if
any.  The CONFIRMING branch persists its updates before throwing, which
is why the result carries both. -/
def checkPayoutStatus (st : PayoutCheckState) (confirmationsRequired : ℤ)
    (receipt : Option Receipt) (currentBlock : ℤ) (now : ℤ) :
    PayoutCheckState × Option String :=
  if st.payoutTx.status == .CONFIRMED || st.payoutTx.status == .FAILED then
    (st, none)
  else
    match receipt with
    | none => (st, some "Transaction not yet mined")
    | some receipt =>
        let confirmations := currentBlock - receipt.blockNumber + 1
        if receipt.statusCode == 0 then
          ({ st with
             payoutTx := { st.payoutTx with
               status := .FAILED
               confirmations := confirmations
               errorMessage := some "Transaction reverted on-chain" }
             request := { st.request with status := .FAILED } },
           none)
        else if confirmationsRequired ≤ confirmations then
          ({ st with
             payoutTx := { st.payoutTx with
               status := .CONFIRMED
               confirmations := confirmations
               gasUsed := some receipt.gasUsed
               confirmedAt := some now }
             request := { st.request with status := .COMPLETED }
             cache := updateCache st.cache
               (st.request.userId, st.request.assetId, st.request.chainId) fun r =>
                 { r with withdrawalsPending := r.withdrawalsPending - st.request.amount }
             notifications := st.notifications + 1 },
           none)
        else
          ({ st with
             payoutTx := { st.payoutTx with
               status := .CONFIRMING
               confirmations := confirmations }
             request := { st.request with status := .CONFIRMING } },
           some "Waiting for confirmations")

end CryptoStake

namespace CryptoStake

/-- Stake position statuses. -/
inductive StakeStatus where
  | ACTIVE
  | UNSTAKING
  | COMPLETED
  | CANCELLED
deriving DecidableEq, Repr

/-- A stake position row. -/
structure StakePosition where
  id : String
  userId : String
  poolId : String
  amount : ℚ
  rewardsAccrued : ℚ
  rewardsClaimed : ℚ
  lastRewardCalculation : ℤ
  status : StakeStatus
  lockedUntil : Option ℤ
  cooldownEndsAt : Option ℤ
  unstakeRequestedAt : Option ℤ
  unstakedAt : Option ℤ
deriving DecidableEq, Repr

/-- A pool row with its joined asset relation, as the services load it. -/
structure Pool where
  id : String
  assetId : String
  asset : Asset
  currentApr : ℚ
  minStake : ℚ
  maxStake : Option ℚ
  totalCapacity : Option ℚ
  totalStaked : ℚ
  lockDays : ℤ
  cooldownHours : ℤ
  isActive : Bool
deriving DecidableEq, Repr

/-- An APR schedule row. -/
structure AprSchedule where
  id : String
  poolId : String
  apr : ℚ
  effectiveFrom : ℤ
  effectiveTo : Option ℤ
deriving DecidableEq, Repr

/-- The rows of an AprSchedule query for one pool that are effective at
`targetDate`: effectiveFrom has passed and effectiveTo is null or has
not. -/
def activeSchedules (schedules : List AprSchedule) (poolId : String) (targetDate : ℤ) :
    List AprSchedule :=
  schedules.filter fun s =>
    s.poolId == poolId && decide (s.effectiveFrom ≤ targetDate) &&
      (match s.effectiveTo with
       | none => true
       | some t => decide (targetDate ≤ t))

/-- The first row of a descending order-by-effectiveFrom query: the
element with the greatest effectiveFrom, earliest row winning ties. -/
def pickLatest : List AprSchedule → Option AprSchedule
  | [] => none
  | s :: rest =>
      match pickLatest rest with
      | none => some s
      | some b => if b.effectiveFrom ≤ s.effectiveFrom then some s else some b

/-- Model of `getEffectiveApr` (identical in PoolsService and in the
reward worker): the currently effective schedule row's APR, falling back
to the pool's currentApr, or zero if the pool row is absent. -/
def getEffectiveApr (schedules : List AprSchedule) (pools : List Pool)
    (poolId : String) (targetDate : ℤ) : ℚ :=
  match pickLatest (activeSchedules schedules poolId targetDate) with
  | some schedule => schedule.apr
  | none => ((pools.find? (·.id == poolId)).map (·.currentApr)).getD 0

/-- Model of `StakesService.calculateAccruedRewards`: prior accrued
rewards plus amount times the per-second rate times the elapsed seconds
since the last calculation. -/
def calculateAccruedRewards (schedules : List AprSchedule) (pools : List Pool)
    (stake : StakePosition) (now : ℤ) : ℚ :=
  let timeDiffSeconds : ℚ := ((now - stake.lastRewardCalculation : ℤ) : ℚ) / 1000
  let apr := getEffectiveApr schedules pools stake.poolId now
  let ratePerSecond := apr / 100 / 365 / 24 / 60 / 60
  let newRewards := stake.amount * ratePerSecond * timeDiffSeconds
  stake.rewardsAccrued + newRewards

/-- State the staking engine acts on. -/
structure StakeState where
  stakes : List StakePosition
  pools : List Pool
  schedules : List AprSchedule
  bal : Bal
  notifications : ℕ

/-- Result of an unstake call. -/
inductive UnstakeResult where
  | cooldownStarted (cooldownEndsAt : ℤ)
  | completed (amountReturned principalReturned rewardsClaimed : ℚ)
deriving DecidableEq, Repr

/-- Model of `StakesService.unstake`: guards ownership, ACTIVE status and
the lock; a flexible pool with no pending cooldown starts one; otherwise
finalizes the position, decrements the pool's totalStaked by the
principal, and returns principal plus rewards through
`unstakeToBalance`. -/
def unstake (st : StakeState) (userId stakeId : String) (now : ℤ) :
    Except String (UnstakeResult × StakeState) :=
  match st.stakes.find? (·.id == stakeId) with
  | none => .error "Stake position not found"
  | some stake =>
      match st.pools.find? (·.id == stake.poolId) with
      | none => .error "Stake position not found"
      | some pool =>
          if !(stake.userId == userId) then
            .error "Access denied"
          else if !(stake.status == .ACTIVE) then
            .error "Stake is not active"
          else if (match stake.lockedUntil with
                   | some lockedUntil => decide (now < lockedUntil)
                   | none => false) then
            .error "Stake is locked"
          else if 0 < pool.cooldownHours && stake.cooldownEndsAt == none then
            let cooldownEndsAt := now + pool.cooldownHours * 60 * 60 * 1000
            .ok (.cooldownStarted cooldownEndsAt,
              { st with
                stakes := updateWhere st.stakes (·.id == stakeId) fun s =>
                  { s with
                    status := .UNSTAKING
                    unstakeRequestedAt := some now
                    cooldownEndsAt := some cooldownEndsAt } })
          else
            let finalRewards := calculateAccruedRewards st.schedules st.pools stake now
            let totalAmount := stake.amount + finalRewards
            match unstakeToBalance st.bal userId pool.assetId pool.asset.chainId
                totalAmount stakeId with
            | .error msg => .error msg
            | .ok bal' =>
                .ok (.completed totalAmount stake.amount finalRewards,
                  { st with
                    stakes := updateWhere st.stakes (·.id == stakeId) fun s =>
                      { s with
                        status := .COMPLETED
                        unstakedAt := some now
                        rewardsAccrued := finalRewards }
                    pools := updateWhere st.pools (·.id == stake.poolId) fun p =>
                      { p with totalStaked := p.totalStaked - stake.amount }
                    bal := bal' })

/-- Model of the per-position transaction body of the reward worker's
`processUnstakingPositions`: compute the final rewards up to `now`,
complete the position, decrement the pool's totalStaked by the
principal, move the buckets (available up by principal plus rewards,
staked down by the principal, rewardsAccrued down by the prior accrued
value), append the UNSTAKE_COMPLETED entry directly, and notify. -/
def processUnstakingPosition (st : StakeState) (stake : StakePosition) (now : ℤ) :
    StakeState :=
  match st.pools.find? (·.id == stake.poolId) with
  | none => st
  | some pool =>
      let timeDiffSeconds : ℚ := ((now - stake.lastRewardCalculation : ℤ) : ℚ) / 1000
      let effectiveApr := getEffectiveApr st.schedules st.pools stake.poolId now
      let ratePerSecond := effectiveApr / 100 / 365 / 24 / 60 / 60
      let finalRewards := stake.amount * ratePerSecond * timeDiffSeconds
      let totalRewards := stake.rewardsAccrued + finalRewards
      let totalAmount := stake.amount + totalRewards
      let k : BalKey := (stake.userId, pool.assetId, pool.asset.chainId)
      let entry : LedgerEntry :=
        { userId := some stake.userId
          assetId := pool.assetId
          chainId := pool.asset.chainId
          entryType := .UNSTAKE_COMPLETED
          direction := .CREDIT
          amount := totalAmount
          balanceAfter := none
          referenceType := "StakePosition"
          referenceId := stake.id }
      { st with
        stakes := updateWhere st.stakes (·.id == stake.id) fun s =>
          { s with
            status := .COMPLETED
            unstakedAt := some now
            rewardsAccrued := totalRewards }
        pools := updateWhere st.pools (·.id == stake.poolId) fun p =>
          { p with totalStaked := p.totalStaked - stake.amount }
        bal :=
          { ledger := st.bal.ledger ++ [entry]
            cache := updateCache st.bal.cache k fun r =>
              { r with
                available := r.available + totalAmount
                staked := r.staked - stake.amount
                rewardsAccrued := r.rewardsAccrued - stake.rewardsAccrued } }
        notifications := st.notifications + 1 }

/-- Model of the per-stake body of the reward worker's
`calculateRewards` loop: skip when less than one second has elapsed or
when the computed reward is not positive; otherwise return the updated
position and the newly accrued reward. -/
def calculateRewardsStep (schedules : List AprSchedule) (pools : List Pool)
    (stake : StakePosition) (now : ℤ) : Option (StakePosition × ℚ) :=
  let timeDiffSeconds : ℚ := ((now - stake.lastRewardCalculation : ℤ) : ℚ) / 1000
  if timeDiffSeconds < 1 then
    none
  else
    let effectiveApr := getEffectiveApr schedules pools stake.poolId now
    let ratePerSecond := effectiveApr / 100 / 365 / 24 / 60 / 60
    let newRewards := stake.amount * ratePerSecond * timeDiffSeconds
    if 0 < newRewards then
      some ({ stake with
              rewardsAccrued := stake.rewardsAccrued + newRewards
              lastRewardCalculation := now },
            newRewards)
    else
      none

end CryptoStake

namespace CryptoStake

/-- Deposit statuses. -/
inductive DepositStatus where
  | AWAITING
  | CONFIRMING
  | CONFIRMED
  | FAILED
deriving DecidableEq, Repr

/-- A deposit row. -/
structure Deposit where
  id : String
  userId : String
  assetId : String
  chainId : String
  depositAddressId : String
  txHash : String
  logIndex : ℕ
  fromAddress : String
  amount : ℚ
  status : DepositStatus
  confirmations : ℤ
  confirmedAt : Option ℤ
deriving DecidableEq, Repr

/-- A deposit address row. -/
structure DepositAddress where
  id : String
  userId : String
  chainId : String
  address : String
  isActive : Bool
deriving DecidableEq, Repr

/-- A chain row (fields the scanner reads). -/
structure Chain where
  id : String
  name : String
  confirmationsRequired : ℤ
  isActive : Bool
deriving DecidableEq, Repr

/-- An ERC-20 Transfer log as the scanner consumes it (`value` already
scaled by the asset's decimals). -/
structure TransferEvent where
  txHash : String
  logIndex : ℕ
  blockNumber : ℤ
  fromAddr : String
  toAddr : String
  value : ℚ
deriving DecidableEq, Repr

/-- State the deposit scanner acts on. -/
structure ScanState where
  configs : List (String × ℤ)
  deposits : List Deposit
  depositAddresses : List DepositAddress
  assets : List Asset
  ledger : List LedgerEntry
  cache : BalanceCache

/-- SystemConfig key of a chain's last-scanned-block record. -/
def lastScannedKey (chainId : String) : String :=
  "lastScannedBlock_" ++ chainId

/-- Read a SystemConfig value. -/
def configLookup (configs : List (String × ℤ)) (key : String) : Option ℤ :=
  (configs.find? (·.1 == key)).map (·.2)

/-- Upsert a SystemConfig value (keys are unique, so updating the first
matching row is the row update). -/
def configUpsert : List (String × ℤ) → String → ℤ → List (String × ℤ)
  | [], key, v => [(key, v)]
  | kv :: rest, key, v =>
      if kv.1 == key then (kv.1, v) :: rest else kv :: configUpsert rest key v

/-- The scanner's resumption point: the stored last-scanned block, with
the source's falsy-zero fallback to a 1000-block lookback. -/
def scanLastScanned (configs : List (String × ℤ)) (chainId : String)
    (currentBlock : ℤ) : ℤ :=
  match configLookup configs (lastScannedKey chainId) with
  | some v => if v = 0 then currentBlock - 1000 else v
  | none => currentBlock - 1000

/-- First block of a scan pass: one past the resumption point, clamped to
a 10,000-block lookback. -/
def scanFromBlock (configs : List (String × ℤ)) (chainId : String)
    (currentBlock : ℤ) : ℤ :=
  max (scanLastScanned configs chainId currentBlock + 1) (currentBlock - 10000)

/-- Starting blocks of the ≤ 2000-block chunks covering
[fromBlock, currentBlock]. -/
def chunkStarts (fromBlock currentBlock : ℤ) : List ℤ :=
  (List.range ((currentBlock - fromBlock).toNat / 2000 + 1)).map fun i =>
    fromBlock + 2000 * i

/-- Record the Transfer events of one chunk: events to a known deposit
address that are not yet recorded become CONFIRMING deposit rows (the
row id is derived from the unique (txHash, logIndex) key in place of a
database-generated id). -/
def recordEvents (st : ScanState) (chain : Chain) (asset : Asset)
    (addressMap : List (String × DepositAddress)) (currentBlock : ℤ)
    (events : List TransferEvent) : ScanState :=
  events.foldl
    (fun st event =>
      match (addressMap.find? (·.1 == event.toAddr.toLower)).map (·.2) with
      | none => st
      | some depositAddress =>
          if st.deposits.any (fun d =>
              d.txHash == event.txHash && d.logIndex == event.logIndex &&
                d.chainId == chain.id) then
            st
          else
            { st with
              deposits := st.deposits ++
                [{ id := event.txHash ++ "-" ++ toString event.logIndex
                   userId := depositAddress.userId
                   assetId := asset.id
                   chainId := chain.id
                   depositAddressId := depositAddress.id
                   txHash := event.txHash
                   logIndex := event.logIndex
                   fromAddress := event.fromAddr
                   amount := event.value
                   status := .CONFIRMING
                   confirmations := currentBlock - event.blockNumber
                   confirmedAt := none }] })
    st

/-- Process one asset's chunks in order, stopping at the first failed log
query; the caller's per-asset catch swallows the error, so the state
reached so far is kept. -/
def scanAssetChunks (st : ScanState) (chain : Chain) (asset : Asset)
    (addressMap : List (String × DepositAddress)) (currentBlock : ℤ)
    (queryLogs : String → ℤ → ℤ → Except String (List TransferEvent)) :
    List ℤ → ScanState
  | [] => st
  | block :: rest =>
      let toBlock := min (block + 2000 - 1) currentBlock
      match queryLogs
          ((asset.contractAddress).getD "") block toBlock with
      | .error _ => st
      | .ok events =>
          scanAssetChunks (recordEvents st chain asset addressMap currentBlock events)
            chain asset addressMap currentBlock queryLogs rest

/-- Scan one asset: native assets and assets without a contract are
skipped, the rest are scanned chunk by chunk with errors swallowed. -/
def scanAsset (st : ScanState) (chain : Chain)
    (addressMap : List (String × DepositAddress)) (fromBlock currentBlock : ℤ)
    (queryLogs : String → ℤ → ℤ → Except String (List TransferEvent))
    (asset : Asset) : ScanState :=
  if asset.isNative || asset.contractAddress == none then
    st
  else
    scanAssetChunks st chain asset addressMap currentBlock queryLogs
      (chunkStarts fromBlock currentBlock)

/-- Re-check one CONFIRMING deposit against its receipt: confirm and
credit once the chain's required confirmation count is reached, otherwise
record the current count. -/
def recheckDeposit (chain : Chain) (currentBlock : ℤ)
    (receipts : String → Option Receipt) (now : ℤ) (st : ScanState)
    (deposit : Deposit) : ScanState :=
  match receipts deposit.txHash with
  | none => st
  | some receipt =>
      let confirmations := currentBlock - receipt.blockNumber + 1
      if chain.confirmationsRequired ≤ confirmations then
        let entry : LedgerEntry :=
          { userId := some deposit.userId
            assetId := deposit.assetId
            chainId := deposit.chainId
            entryType := .DEPOSIT_CONFIRMED
            direction := .CREDIT
            amount := deposit.amount
            balanceAfter := none
            referenceType := "Deposit"
            referenceId := deposit.id }
        { st with
          deposits := updateWhere st.deposits (·.id == deposit.id) fun d =>
            { d with
              confirmations := confirmations
              status := .CONFIRMED
              confirmedAt := some now }
          ledger := st.ledger ++ [entry]
          cache := updateCache st.cache
            (deposit.userId, deposit.assetId, deposit.chainId) fun r =>
              { r with available := r.available + deposit.amount } }
      else
        { st with
          deposits := updateWhere st.deposits (·.id == deposit.id) fun d =>
            { d with confirmations := confirmations } }

/-- Model of the deposit worker's `scanChainDeposits`: compute the block
window, scan each active asset's Transfer logs (per-asset errors are
caught and swallowed), persist lastScannedBlock = the current head, then
re-check every still-CONFIRMING deposit of the chain. -/
def scanChainDeposits (st : ScanState) (chain : Chain) (currentBlock : ℤ)
    (queryLogs : String → ℤ → ℤ → Except String (List TransferEvent))
    (receipts : String → Option Receipt) (now : ℤ) : ScanState :=
  let fromBlock := scanFromBlock st.configs chain.id currentBlock
  if currentBlock < fromBlock then
    st
  else
    let addressMap :=
      (st.depositAddresses.filter fun da => da.chainId == chain.id && da.isActive).map
        fun da => (da.address.toLower, da)
    let activeAssets := st.assets.filter fun a => a.chainId == chain.id && a.isActive
    let st₁ := activeAssets.foldl
      (fun st asset => scanAsset st chain addressMap fromBlock currentBlock queryLogs asset)
      st
    let st₂ := { st₁ with
      configs := configUpsert st₁.configs (lastScannedKey chain.id) currentBlock }
    let pendingDeposits := st₂.deposits.filter fun d =>
      d.chainId == chain.id && d.status == .CONFIRMING
    pendingDeposits.foldl (recheckDeposit chain currentBlock receipts now) st₂

end CryptoStake

namespace CryptoStake

/-- A TwoFactorSecret row; the AES-256-GCM layer is a bijection the model
elides, so the stored secret stands for its decryption. -/
structure TwoFactorSecretRow where
  userId : String
  secret : String
  isVerified : Bool
deriving DecidableEq, Repr

/-- A recovery code row (only the code's hash is stored). -/
structure RecoveryCodeRow where
  id : String
  userId : String
  codeHash : String
  isUsed : Bool
  usedAt : Option ℤ
deriving DecidableEq, Repr

/-- State the authentication service acts on. -/
structure AuthSt where
  users : List User
  twoFactorSecrets : List TwoFactorSecretRow
  recoveryCodes : List RecoveryCodeRow

/-- The error taxonomy of the authentication endpoints. -/
inductive AuthErr where
  | unauthorized (msg : String)
  | forbidden (msg : String)
  | badRequest (msg : String)
deriving DecidableEq, Repr

/-- Login request body. -/
structure LoginDto where
  email : String
  password : String
  totpCode : Option String
deriving DecidableEq, Repr

/-- Model of `TwoFactorService.verifyToken`: false without a verified
secret, otherwise the TOTP verifier's verdict on the decrypted secret.
`verifyTotp token secret` abstracts `authenticator.verify` (RFC 6238,
30 s step, window 1) at the ambient clock. -/
def verifyToken (verifyTotp : String → String → Bool) (st : AuthSt)
    (userId token : String) : Bool :=
  match st.twoFactorSecrets.find? (·.userId == userId) with
  | none => false
  | some twoFactorSecret =>
      if !twoFactorSecret.isVerified then false
      else verifyTotp token twoFactorSecret.secret

/-- Model of `TwoFactorService.verifyRecoveryCode`: an unused row whose
hash matches is marked used and accepted.  `hash` abstracts the code
digest. -/
def verifyRecoveryCode (hash : String → String) (st : AuthSt) (userId code : String)
    (now : ℤ) : Bool × AuthSt :=
  let codeHash := hash code
  match st.recoveryCodes.find? (fun r =>
      r.userId == userId && r.codeHash == codeHash && !r.isUsed) with
  | none => (false, st)
  | some recoveryCode =>
      (true,
       { st with
         recoveryCodes := updateWhere st.recoveryCodes (·.id == recoveryCode.id)
           fun r => { r with isUsed := true, usedAt := some now } })

/-- Model of `AuthService.login`: find the user, check active flag and
password, require a TOTP code when 2FA is enabled with a verified
secret, refuse admins without 2FA, bump lastLoginAt and return the
authenticated user's id.  `verifyPassword hash password` abstracts the
Argon2id verification; token/session issuance is out of the model. -/
def login (verifyTotp : String → String → Bool)
    (verifyPassword : String → String → Bool) (st : AuthSt) (dto : LoginDto)
    (now : ℤ) : Except AuthErr (String × AuthSt) :=
  match st.users.find? (·.email == dto.email.toLower) with
  | none => .error (.unauthorized "Invalid credentials")
  | some user =>
      if !user.isActive then
        .error (.forbidden "Account is disabled")
      else if !(verifyPassword user.passwordHash dto.password) then
        .error (.unauthorized "Invalid credentials")
      else
        let secretVerified :=
          ((st.twoFactorSecrets.find? (·.userId == user.id)).map (·.isVerified)).getD false
        let twoFaCheck : Except AuthErr Unit :=
          if user.twoFactorEnabled && secretVerified then
            match dto.totpCode with
            | none => .error (.badRequest "2FA code required")
            | some totpCode =>
                if !(verifyToken verifyTotp st user.id totpCode) then
                  .error (.unauthorized "Invalid 2FA code")
                else .ok ()
          else .ok ()
        match twoFaCheck with
        | .error e => .error e
        | .ok _ =>
            if (user.role == .ADMIN || user.role == .SUPER_ADMIN) &&
                !user.twoFactorEnabled then
              .error (.forbidden "Admin accounts require 2FA to be enabled")
            else
              .ok (user.id,
                { st with
                  users := updateWhere st.users (·.id == user.id) fun u =>
                    { u with lastLoginAt := some now } })

end CryptoStake

namespace CryptoStake

/-- Amounts of the ledger entries of a given type referencing a row. -/
def entryAmounts (ledger : List LedgerEntry) (t : LedgerEntryType) (refId : String) :
    List ℚ :=
  (ledger.filter fun e => e.entryType == t && e.referenceId == refId).map (·.amount)

/-- Whether an Except result is a success. -/
def resultOk : Except ε α → Bool
  | .ok _ => true
  | .error _ => false

/-- Example key of user u1's asset1 balance on chain1. -/
def bk1 : BalKey := ("u1", "asset1", "chain1")

/-- Example ERC-20 asset on chain1 priced at 1 USD. -/
def asset1 : Asset :=
  { id := "asset1", chainId := "chain1", symbol := "TKN", decimals := 18
    contractAddress := some "0xc0", isNative := false, isActive := true, priceUsd := 1 }

/-- Example withdrawal request of amount 5, already SENT on-chain. -/
def wr1 : WithdrawalRequest :=
  { id := "wr1", userId := "u1", assetId := "asset1", chainId := "chain1"
    amount := 5, fee := 1/200, netAmount := 5 - 1/200, destinationAddress := "0xdest"
    status := .SENT, userNotes := none, adminNotes := none, reviewedBy := some "admin1"
    reviewedAt := some 10, manualProofUrl := none, manualProofNotes := none
    idempotencyKey := "k1", fraudScore := 0, fraudIndicators := [], createdAt := 0 }

/-- The deposit credit backing wr1's reserve. -/
def entryDep1 : LedgerEntry :=
  { userId := some "u1", assetId := "asset1", chainId := "chain1"
    entryType := .DEPOSIT_CONFIRMED, direction := .CREDIT, amount := 5
    balanceAfter := some 5, referenceType := "Deposit", referenceId := "dep1" }

/-- The WITHDRAWAL_REQUESTED debit that reserved wr1's amount. -/
def entryReq1 : LedgerEntry :=
  { userId := some "u1", assetId := "asset1", chainId := "chain1"
    entryType := .WITHDRAWAL_REQUESTED, direction := .DEBIT, amount := 5
    balanceAfter := some 0, referenceType := "WithdrawalRequest", referenceId := "wr1" }

/-- Ledger after depositing 5 and reserving 5 for wr1. -/
def ledger1 : List LedgerEntry := [entryDep1, entryReq1]

/-- Projection after depositing 5 and reserving 5 for wr1. -/
def cache1 : BalanceCache := fun k =>
  if k = bk1 then
    { available := 0, staked := 0, rewardsAccrued := 0, withdrawalsPending := 5 }
  else BalRow.zero

/-- Payout transaction of wr1, broadcast and awaiting confirmations. -/
def payoutTx1 : PayoutTx :=
  { id := "pt1", withdrawalRequestId := "wr1", txHash := some "0xabc"
    status := .SENT, confirmations := 0, gasUsed := none, errorMessage := none
    confirmedAt := none }

/-- State of wr1's payout check before the confirming call. -/
def pcState1 : PayoutCheckState :=
  { payoutTx := payoutTx1, request := wr1, ledger := ledger1, cache := cache1
    notifications := 0 }

/-- Successful receipt of wr1's payout transaction, mined at block 100. -/
def receipt1 : Receipt := { statusCode := 1, blockNumber := 100, gasUsed := 21000 }

/-- The request wr1 still awaiting review. -/
def wrPending : WithdrawalRequest :=
  { wr1 with status := .PENDING_REVIEW, reviewedBy := none, reviewedAt := none }

/-- API state holding the pending request wr1 with its reserve in place. -/
def st2 : ApiState :=
  { requests := [wrPending], bal := { ledger := ledger1, cache := cache1 }
    whitelist := [], assets := [asset1], users := [], cfg := {} }

/-- Example ACTIVE stake of 100 with 10 accrued rewards in pool p1. -/
def stake3 : StakePosition :=
  { id := "s1", userId := "u1", poolId := "p1", amount := 100, rewardsAccrued := 10
    rewardsClaimed := 0, lastRewardCalculation := 0, status := .ACTIVE
    lockedUntil := none, cooldownEndsAt := none, unstakeRequestedAt := none
    unstakedAt := none }

/-- Example flexible pool with zero cooldown and zero current APR. -/
def pool3 : Pool :=
  { id := "p1", assetId := "asset1", asset := asset1, currentApr := 0, minStake := 1
    maxStake := none, totalCapacity := none, totalStaked := 100, lockDays := 0
    cooldownHours := 0, isActive := true }

/-- Ledger and projection backing stake3: 100 staked, 10 accrued. -/
def bal3 : Bal :=
  { ledger := []
    cache := fun k =>
      if k = bk1 then
        { available := 0, staked := 100, rewardsAccrued := 10, withdrawalsPending := 0 }
      else BalRow.zero }

/-- Staking state holding stake3 in pool3. -/
def st3 : StakeState :=
  { stakes := [stake3], pools := [pool3], schedules := [], bal := bal3
    notifications := 0 }

/-- The same position as stake3, but UNSTAKING with an elapsed cooldown,
as the background sweep would pick it up. -/
def stake4 : StakePosition := { stake3 with status := .UNSTAKING, cooldownEndsAt := some 500 }

/-- Staking state holding stake4 in pool3. -/
def st4 : StakeState := { st3 with stakes := [stake4] }

/-- Example request already stored under idempotency key k1. -/
def wrExisting : WithdrawalRequest := wrPending

/-- API state already holding a request with idempotency key k1. -/
def st6 : ApiState := st2

/-- A resubmission carrying the same idempotency key k1. -/
def p6 : CreateRequestParams :=
  { assetId := "asset1", chainId := "chain1", amount := 1
    destinationAddress := "0xdest", userNotes := none, idempotencyKey := "k1" }

/-- Example user with 2FA enabled. -/
def user7 : User :=
  { id := "u1", email := "a@b.c", passwordHash := "H", role := .USER
    emailVerified := true, twoFactorEnabled := true, isActive := true, createdAt := 0
    lastLoginAt := none, dailyWithdrawalLimit := 10000 }

/-- user7's verified TOTP secret. -/
def secret7 : TwoFactorSecretRow := { userId := "u1", secret := "S", isVerified := true }

/-- user7's unused recovery code (hash oracle is the identity here). -/
def rc7 : RecoveryCodeRow :=
  { id := "rc1", userId := "u1", codeHash := "AAAA-BBBB", isUsed := false, usedAt := none }

/-- Auth state for the 2FA login scenario. -/
def auth7 : AuthSt :=
  { users := [user7], twoFactorSecrets := [secret7], recoveryCodes := [rc7] }

/-- TOTP oracle under which 123456 is the currently valid code for S. -/
def vt7 : String → String → Bool := fun token secret => token == "123456" && secret == "S"

/-- Password oracle under which pw verifies against hash H. -/
def vp7 : String → String → Bool := fun hash password => hash == "H" && password == "pw"

/-- Login attempt presenting the recovery code in the TOTP field. -/
def dto7 : LoginDto := { email := "a@b.c", password := "pw", totpCode := some "AAAA-BBBB" }

/-- Example user for fraud scoring: 3-day-old account, unverified email. -/
def user8 : User :=
  { id := "u1", email := "a@b.c", passwordHash := "H", role := .USER
    emailVerified := false, twoFactorEnabled := false, isActive := true, createdAt := 0
    lastLoginAt := none, dailyWithdrawalLimit := 10000 }

/-- Fraud-check clock three days after user8's registration. -/
def now8 : ℤ := 3 * 24 * 60 * 60 * 1000

/-- Fraud state in which only the pattern check can fire: the destination
is whitelisted with an expired cooldown, the amount is small and there
are no recent requests. -/
def fr8 : FraudSt :=
  { whitelist := [{ userId := "u1", chainId := "chain1", address := "0xdest"
                    label := none, cooldownEndsAt := 0 }]
    assets := [asset1], users := [user8], requests := [], cfg := {} }

/-- Withdrawal submission analyzed by the fraud scenario. -/
def p8 : AnalyzeParams :=
  { userId := "u1", destinationAddress := "0xdest", amount := 1, assetId := "asset1"
    chainId := "chain1" }

/-- A debit of 1 for user u1 with no ledger history behind it. -/
def d9params : CreateLedgerEntryParams :=
  { userId := some "u1", assetId := "asset1", chainId := "chain1"
    entryType := .WITHDRAWAL_PAID, direction := .DEBIT, amount := 1
    referenceType := "WithdrawalRequest", referenceId := "wr1" }

/-- Chain scanned in the deposit scenario, requiring 12 confirmations. -/
def chain10 : Chain :=
  { id := "chain1", name := "testchain", confirmationsRequired := 12, isActive := true }

/-- Scanner state resuming from block 100. -/
def st10 : ScanState :=
  { configs := [(lastScannedKey "chain1", 100)]
    deposits := []
    depositAddresses := [{ id := "da1", userId := "u1", chainId := "chain1"
                           address := "0xaaa", isActive := true }]
    assets := [asset1]
    ledger := []
    cache := fun _ => BalRow.zero }

/-- A log query that always throws. -/
def qErr : String → ℤ → ℤ → Except String (List TransferEvent) :=
  fun _ _ _ => .error "query failed"

/-- A receipt source that never finds the transaction. -/
def rNone : String → Option Receipt := fun _ => none

/-- An APR schedule row granting pool p1 a 10 percent APR from epoch 0. -/
def sch5 : AprSchedule :=
  { id := "as1", poolId := "p1", apr := 10, effectiveFrom := 0, effectiveTo := none }

/-- Login attempt presenting the currently valid TOTP code. -/
def dto7ok : LoginDto := { email := "a@b.c", password := "pw", totpCode := some "123456" }

/-- Principal plus final rewards of a position finalized at `now`. -/
def unstakeTotal (schedules : List AprSchedule) (pools : List Pool)
    (stake : StakePosition) (now : ℤ) : ℚ :=
  stake.amount + calculateAccruedRewards schedules pools stake now

/-- Balance-projection key a position's finalization touches. -/
def stakeBalKey (stake : StakePosition) (pool : Pool) : BalKey :=
  (stake.userId, pool.assetId, pool.asset.chainId)

end CryptoStake

namespace CryptoStake

/-- C1: the payout worker's confirmation step, run on request wr1 with
its required confirmation count reached (12 of 12), sets the request
COMPLETED and decrements withdrawalsPending by the amount, but appends
no ledger entry at all: the COMPLETED request has zero WITHDRAWAL_PAID
entries, violating the exactly-one invariant. -/
theorem c1_confirmed_payout_writes_no_withdrawal_paid_entry :
    (checkPayoutStatus pcState1 12 (some receipt1) 111 1000).2 = none ∧
    (checkPayoutStatus pcState1 12 (some receipt1) 111 1000).1.request.status =
      .COMPLETED ∧
    ((checkPayoutStatus pcState1 12 (some receipt1) 111 1000).1.cache
        bk1).withdrawalsPending = 0 ∧
    countEntries (checkPayoutStatus pcState1 12 (some receipt1) 111 1000).1.ledger
      .WITHDRAWAL_PAID "wr1" = 0 ∧
    (checkPayoutStatus pcState1 12 (some receipt1) 111 1000).1.ledger =
      pcState1.ledger := by
  refine ⟨?_, ?_, ?_, ?_, ?_⟩ <;> with_unfolding_all decide

/-- C2: markPaidManually on the PENDING_REVIEW request wr1 with admin
notes supplied never succeeds: finalizeWithdrawal hardcodes the
WITHDRAWAL_PAID amount to zero, which the ledger's own positivity guard
rejects, so the whole transaction throws and rolls back. -/
theorem c2_markPaidManually_always_throws :
    markPaidManually st2 "wr1" "admin1" none "payout done by hand" 1000 =
      .error "Ledger entry amount must be positive" := rfl

/-- C3: the direct unstake of stake s1 (principal 100, accrued rewards
10, zero APR so no further accrual) posts the UNSTAKE_COMPLETED credit
for 110 as claimed, but the projection's staked bucket drops by 110 to
-10 instead of by the principal 100, and the rewardsAccrued bucket stays
at 10 instead of dropping to 0. -/
theorem c3_unstake_projection_mismatch :
    ((unstake st3 "u1" "s1" 1000).toOption.map fun r =>
      ((r.2.bal.cache bk1).staked, (r.2.bal.cache bk1).rewardsAccrued,
       entryAmounts r.2.bal.ledger .UNSTAKE_COMPLETED "s1")) =
    some (-10, 10, [110]) := by with_unfolding_all decide

/-- C4 counterexample: on positions with identical amount, accrued
rewards and reward clock, the direct unstake path leaves the staked and
rewardsAccrued buckets at (-10, 10) while the background sweep leaves
them at (0, 0), so the two finalization paths do not produce the same
projection deltas. -/
theorem c4_counterexample_paths_differ :
    ((unstake st3 "u1" "s1" 1000).toOption.map fun r =>
        ((r.2.bal.cache bk1).staked, (r.2.bal.cache bk1).rewardsAccrued)) ≠
      some (((processUnstakingPosition st4 stake4 1000).bal.cache bk1).staked,
            ((processUnstakingPosition st4 stake4 1000).bal.cache bk1).rewardsAccrued) := by
  with_unfolding_all decide

/-- C7 counterexample: user u1 has 2FA enabled with a verified secret and
holds the unused recovery code AAAA-BBBB (accepted by the recovery-code
verifier itself), yet a login with correct email and password that
presents that recovery code fails with an authorization error: the login
path consults only the TOTP verifier. -/
theorem c7_counterexample_recovery_code_rejected_at_login :
    (verifyRecoveryCode (fun c => c) auth7 "u1" "AAAA-BBBB" 50).1 = true ∧
    login vt7 vp7 auth7 dto7 50 = .error (.unauthorized "Invalid 2FA code") :=
  ⟨by with_unfolding_all decide, by with_unfolding_all rfl⟩

/-- C8 counterexample: for a 3-day-old account with an unverified email,
the analysis result contains the new-account indicator but not the
unverified-email one, because the pattern check returns at most one
indicator and the new-account arm shadows the email arm. -/
theorem c8_counterexample_missing_unverified_email_indicator :
    ¬ ((∃ i ∈ (analyzeWithdrawalRequest fr8 p8 now8).indicators,
          i.type = .SUSPICIOUS_PATTERN ∧ i.severity = .MEDIUM ∧ i.score = 25) ∧
       (∃ i ∈ (analyzeWithdrawalRequest fr8 p8 now8).indicators,
          i.severity = .LOW ∧ i.score = 15)) := by
  with_unfolding_all decide

/-- Appending one entry moves a tuple's balance by its signed amount when
the entry belongs to that tuple and leaves it unchanged otherwise. -/
theorem calculateBalance_append (l : List LedgerEntry) (e : LedgerEntry)
    (u a c : String) :
    calculateBalance (l ++ [e]) u a c =
      calculateBalance l u a c +
        (if entryMatches e u a c then
           (match e.direction with
            | .CREDIT => e.amount
            | .DEBIT => -e.amount)
         else 0) := by
  unfold calculateBalance
  simp only [List.filter_append, List.map_append, List.sum_append]
  by_cases h : entryMatches e u a c
  · simp only [h, if_true, List.filter_cons, List.filter_nil]
    cases hd : e.direction <;>
      simp [hd, List.filter_cons, List.filter_nil] <;> ring
  · simp only [h]
    simp [h, List.filter_cons, List.filter_nil]

/-- A successful createEntry appends exactly one row carrying the
parameters' key, direction and amount; the amount is positive and a
user-attributed DEBIT was covered by the tuple's prior balance. -/
theorem createEntry_ok_spec (ledger : List LedgerEntry)
    (params : CreateLedgerEntryParams) (entry : LedgerEntry)
    (ledger' : List LedgerEntry)
    (h : createEntry ledger params = .ok (entry, ledger')) :
    ledger' = ledger ++ [entry] ∧
    entry.userId = params.userId ∧ entry.assetId = params.assetId ∧
    entry.chainId = params.chainId ∧ entry.direction = params.direction ∧
    entry.amount = params.amount ∧ 0 < params.amount ∧
    (∀ uid, params.userId = some uid → params.direction = .DEBIT →
        params.amount ≤ calculateBalance ledger uid params.assetId params.chainId) := by
  unfold createEntry at h
  split at h
  · exact absurd h (by simp)
  · rename_i hamt
    have hpos : 0 < params.amount := lt_of_not_ge fun hle => hamt (by simpa using hle)
    rcases hu : params.userId with _ | uid
    · simp only [hu, Except.ok.injEq, Prod.mk.injEq] at h
      obtain ⟨hentry, hledger⟩ := h
      subst hentry
      refine ⟨hledger.symm, by simp [hu], rfl, rfl, rfl, rfl, hpos, ?_⟩
      intro uid' h1 _
      exact absurd h1 (by simp [hu])
    · rcases hd : params.direction with _ | _
      · simp only [hu, hd, Except.ok.injEq, Prod.mk.injEq] at h
        obtain ⟨hentry, hledger⟩ := h
        subst hentry
        refine ⟨hledger.symm, by simp [hu], rfl, rfl, by simp [hd], rfl, hpos, ?_⟩
        intro uid' _ h2
        exact absurd h2 (by simp [hd])
      · simp only [hu, hd] at h
        split at h
        · exact absurd h (by simp)
        · rename_i ba heq
          simp only [Except.ok.injEq, Prod.mk.injEq] at h
          obtain ⟨hentry, hledger⟩ := h
          subst hentry
          refine ⟨hledger.symm, by simp [hu], rfl, rfl, by simp [hd], rfl, hpos, ?_⟩
          intro uid' h1 _
          have huid : uid = uid' := by simp [hu] at h1; exact h1
          subst huid
          split at heq
          · exact absurd heq (by simp)
          · rename_i hlt
            exact sub_nonneg.mp (le_of_not_lt hlt)

/-- C9: when every tuple's credit-minus-debit sum is non-negative, any
successful createEntry keeps it so, and a DEBIT exceeding its tuple's
current sum is rejected with the insufficient-balance error, the error
appending nothing. -/
theorem c9_createEntry_preserves_nonneg (ledger : List LedgerEntry)
    (params : CreateLedgerEntryParams)
    (hinv : ∀ u a c, 0 ≤ calculateBalance ledger u a c) :
    (∀ entry ledger', createEntry ledger params = .ok (entry, ledger') →
        ∀ u a c, 0 ≤ calculateBalance ledger' u a c) ∧
    (∀ uid, params.userId = some uid → params.direction = .DEBIT →
        calculateBalance ledger uid params.assetId params.chainId < params.amount →
        createEntry ledger params = .error "Insufficient balance for debit") := by
  constructor
  · intro entry ledger' h u a c
    obtain ⟨hl, huid, hasset, hchain, hdir, hamt, hpos, hdebit⟩ :=
      createEntry_ok_spec ledger params entry ledger' h
    subst hl
    rw [calculateBalance_append]
    by_cases hm : entryMatches entry u a c
    · have hm' := hm
      unfold entryMatches at hm'
      simp only [Bool.and_eq_true, beq_iff_eq] at hm'
      obtain ⟨⟨hmu, hma⟩, hmc⟩ := hm'
      rw [if_pos hm]
      cases hdir' : entry.direction with
      | CREDIT =>
          simp only
          have := hinv u a c
          linarith
      | DEBIT =>
          simp only
          have hcov := hdebit u (by rw [← huid, hmu]) (by rw [← hdir, hdir'])
          rw [← hamt, ← hasset, ← hchain, hma, hmc] at hcov
          linarith
    · rw [if_neg hm, add_zero]
      exact hinv u a c
  · intro uid hu hd hlt
    have hpos : 0 < params.amount := lt_of_le_of_lt (hinv uid params.assetId params.chainId) hlt
    unfold createEntry
    rw [if_neg (not_le_of_lt hpos)]
    rw [hu, hd]
    simp only
    rw [if_pos (by simpa using sub_neg.mpr hlt)]

/-- C9 witness: on the empty ledger, whose balances are all zero, a DEBIT
of 1 for user u1 is rejected with the insufficient-balance error. -/
theorem c9_witness_debit_on_empty_ledger_rejected :
    createEntry [] d9params = .error "Insufficient balance for debit" :=
  (c9_createEntry_preserves_nonneg [] d9params
      (fun u a c => by simp [calculateBalance])).2
    "u1" rfl rfl (by norm_num [calculateBalance, d9params])

/-- An upserted SystemConfig key reads back the upserted value. -/
theorem configLookup_configUpsert_self (c : List (String × ℤ)) (key : String) (v : ℤ) :
    configLookup (configUpsert c key v) key = some v := by
  induction c with
  | nil => simp [configUpsert, configLookup, List.find?]
  | cons kv rest ih =>
      by_cases hk : kv.1 == key
      · simp [configUpsert, hk, configLookup, List.find?]
      · simp only [configUpsert, if_neg hk]
        simpa [configLookup, List.find?, hk] using ih

/-- A fold whose step preserves a projection preserves it overall. -/
theorem foldl_preserves {α β γ : Type} (f : β → α → β) (g : β → γ)
    (h : ∀ s e, g (f s e) = g s) :
    ∀ (l : List α) (s : β), g (l.foldl f s) = g s := by
  intro l
  induction l with
  | nil => intro s; rfl
  | cons e rest ih => intro s; rw [List.foldl_cons, ih, h]

/-- Recording scanned Transfer events never touches the SystemConfig. -/
theorem recordEvents_configs (chain : Chain) (asset : Asset)
    (am : List (String × DepositAddress)) (cb : ℤ) (events : List TransferEvent)
    (st : ScanState) :
    (recordEvents st chain asset am cb events).configs = st.configs := by
  unfold recordEvents
  refine foldl_preserves _ (fun s => s.configs) ?_ events st
  intro s e
  dsimp only
  split
  · rfl
  · split
    · rfl
    · rfl

/-- Scanning an asset's chunks never touches the SystemConfig, whether or
not a chunk's log query throws. -/
theorem scanAssetChunks_configs (chain : Chain) (asset : Asset)
    (am : List (String × DepositAddress)) (cb : ℤ)
    (q : String → ℤ → ℤ → Except String (List TransferEvent)) :
    ∀ (chunks : List ℤ) (st : ScanState),
      (scanAssetChunks st chain asset am cb q chunks).configs = st.configs := by
  intro chunks
  induction chunks with
  | nil => intro st; rfl
  | cons b rest ih =>
      intro st
      simp only [scanAssetChunks]
      split
      · rfl
      · rw [ih, recordEvents_configs]

/-- Scanning one asset never touches the SystemConfig. -/
theorem scanAsset_configs (chain : Chain) (am : List (String × DepositAddress))
    (fb cb : ℤ) (q : String → ℤ → ℤ → Except String (List TransferEvent))
    (asset : Asset) (st : ScanState) :
    (scanAsset st chain am fb cb q asset).configs = st.configs := by
  unfold scanAsset
  split
  · rfl
  · rw [scanAssetChunks_configs]

/-- Re-checking a CONFIRMING deposit never touches the SystemConfig. -/
theorem recheckDeposit_configs (chain : Chain) (cb : ℤ)
    (receipts : String → Option Receipt) (now : ℤ) (st : ScanState) (d : Deposit) :
    (recheckDeposit chain cb receipts now st d).configs = st.configs := by
  unfold recheckDeposit
  split
  · rfl
  · dsimp only
    split <;> rfl

/-- C10: whenever a scan pass has a non-empty window, it persists
lastScannedBlock = the current head, for every log-query behaviour
including ones that throw on some or all assets; consequently every
later pass starts strictly after that head, so the window whose log
queries failed is never rescanned. -/
theorem c10_scan_persists_head_despite_asset_errors (st : ScanState) (chain : Chain)
    (currentBlock : ℤ)
    (queryLogs : String → ℤ → ℤ → Except String (List TransferEvent))
    (receipts : String → Option Receipt) (now : ℤ)
    (hwindow : scanFromBlock st.configs chain.id currentBlock ≤ currentBlock)
    (hpos : 0 < currentBlock) :
    configLookup (scanChainDeposits st chain currentBlock queryLogs receipts now).configs
        (lastScannedKey chain.id) = some currentBlock ∧
    ∀ head2 : ℤ, currentBlock + 1 ≤
        scanFromBlock
          (scanChainDeposits st chain currentBlock queryLogs receipts now).configs
          chain.id head2 := by
  have hconfigs :
      (scanChainDeposits st chain currentBlock queryLogs receipts now).configs =
        configUpsert st.configs (lastScannedKey chain.id) currentBlock := by
    unfold scanChainDeposits
    rw [if_neg (not_lt.mpr hwindow)]
    rw [foldl_preserves _ (fun s => s.configs)
      (fun s d => recheckDeposit_configs chain currentBlock receipts now s d)]
    dsimp only
    rw [foldl_preserves _ (fun s => s.configs)
      (fun s a => scanAsset_configs chain _ _ currentBlock queryLogs a s)]
  constructor
  · rw [hconfigs, configLookup_configUpsert_self]
  · intro head2
    unfold scanFromBlock scanLastScanned
    rw [hconfigs, configLookup_configUpsert_self]
    simp only
    rw [if_neg (by exact_mod_cast hpos.ne')]
    exact le_max_left _ _

/-- C10 witness: resuming from block 100 at head 150 with a log query
that always throws, the pass still records lastScannedBlock = 150, and a
later pass at any head starts at block 151 or later. -/
theorem c10_witness_throwing_query_still_persists_head :
    configLookup (scanChainDeposits st10 chain10 150 qErr rNone 0).configs
        (lastScannedKey "chain1") = some 150 ∧
    (151 : ℤ) ≤ scanFromBlock (scanChainDeposits st10 chain10 150 qErr rNone 0).configs
        "chain1" 155 := by
  have h := c10_scan_persists_head_despite_asset_errors st10 chain10 150 qErr rNone 0
    (by with_unfolding_all decide) (by norm_num)
  exact ⟨h.1, h.2 155⟩

/-- A nonempty schedule query always yields a first row. -/
theorem pickLatest_ne_none (a : AprSchedule) (rest : List AprSchedule) :
    pickLatest (a :: rest) ≠ none := by
  unfold pickLatest
  cases h : pickLatest rest with
  | none => simp
  | some b => by_cases hba : b.effectiveFrom ≤ a.effectiveFrom <;> simp [hba]

/-- Only the empty schedule query yields no first row. -/
theorem pickLatest_eq_none {l : List AprSchedule} (h : pickLatest l = none) : l = [] := by
  cases l with
  | nil => rfl
  | cons a rest => exact absurd h (pickLatest_ne_none a rest)

/-- The picked row is one of the queried rows. -/
theorem pickLatest_mem : ∀ {l : List AprSchedule} {s : AprSchedule},
    pickLatest l = some s → s ∈ l := by
  intro l
  induction l with
  | nil => intro s h; cases h
  | cons a rest ih =>
      intro s h
      unfold pickLatest at h
      cases hr : pickLatest rest with
      | none =>
          rw [hr] at h
          cases h
          exact List.mem_cons_self a rest
      | some b =>
          rw [hr] at h
          dsimp only at h
          by_cases hba : b.effectiveFrom ≤ a.effectiveFrom
          · rw [if_pos hba] at h
            cases h
            exact List.mem_cons_self a rest
          · rw [if_neg hba] at h
            cases h
            exact List.mem_cons_of_mem a (ih hr)

/-- The picked row maximizes effectiveFrom over the queried rows. -/
theorem pickLatest_max : ∀ {l : List AprSchedule} {s : AprSchedule},
    pickLatest l = some s → ∀ t ∈ l, t.effectiveFrom ≤ s.effectiveFrom := by
  intro l
  induction l with
  | nil => intro s h; cases h
  | cons a rest ih =>
      intro s h t ht
      unfold pickLatest at h
      cases hr : pickLatest rest with
      | none =>
          rw [hr] at h
          cases h
          rcases List.mem_cons.mp ht with rfl | htr
          · exact le_refl _
          · rw [pickLatest_eq_none hr] at htr
            cases htr
      | some b =>
          rw [hr] at h
          dsimp only at h
          by_cases hba : b.effectiveFrom ≤ a.effectiveFrom
          · rw [if_pos hba] at h
            cases h
            rcases List.mem_cons.mp ht with rfl | htr
            · exact le_refl _
            · exact le_trans (ih hr t htr) hba
          · rw [if_neg hba] at h
            cases h
            rcases List.mem_cons.mp ht with rfl | htr
            · exact le_of_not_le hba
            · exact ih hr t htr

/-- C5: the worker's per-stake accrual equals the claimed closed form
with per-second rate apr / 100 / 365 / 86400 and is skipped unchanged
when less than a second has elapsed, and the APR it uses comes from a
currently-effective schedule row maximal by effectiveFrom, falling back
to the pool's currentApr. -/
theorem c5_accrual_formula_and_apr_selection (schedules : List AprSchedule)
    (pools : List Pool) (stake : StakePosition) (now : ℤ) :
    (calculateRewardsStep schedules pools stake now =
      (let timeDiffSeconds : ℚ := ((now - stake.lastRewardCalculation : ℤ) : ℚ) / 1000
       let apr := getEffectiveApr schedules pools stake.poolId now
       let newRewards := stake.amount * (apr / 100 / 365 / 86400) * timeDiffSeconds
       if timeDiffSeconds < 1 then none
       else if 0 < newRewards then
         some ({ stake with
                 rewardsAccrued := stake.rewardsAccrued + newRewards
                 lastRewardCalculation := now }, newRewards)
       else none)) ∧
    (match pickLatest (activeSchedules schedules stake.poolId now) with
     | some s =>
         getEffectiveApr schedules pools stake.poolId now = s.apr ∧
         s.poolId = stake.poolId ∧ s.effectiveFrom ≤ now ∧
         (∀ t, s.effectiveTo = some t → now ≤ t) ∧
         (∀ t ∈ activeSchedules schedules stake.poolId now,
             t.effectiveFrom ≤ s.effectiveFrom)
     | none =>
         getEffectiveApr schedules pools stake.poolId now =
           ((pools.find? (·.id == stake.poolId)).map (·.currentApr)).getD 0) := by
  have hdiv : ∀ x : ℚ, x / 100 / 365 / 24 / 60 / 60 = x / 100 / 365 / 86400 := by
    intro x
    rw [div_div, div_div]
    norm_num
  constructor
  · unfold calculateRewardsStep
    simp only [hdiv]
  · split
    · rename_i s h
      have hm := pickLatest_mem h
      have hp := (List.mem_filter.mp hm).2
      simp only [activeSchedules] at hp
      simp only [Bool.and_eq_true, beq_iff_eq, decide_eq_true_eq] at hp
      refine ⟨?_, hp.1.1, hp.1.2, ?_, fun t ht => pickLatest_max h t ht⟩
      · unfold getEffectiveApr
        rw [h]
      · intro t ht
        have := hp.2
        rw [ht] at this
        simpa using this
    · rename_i h
      unfold getEffectiveApr
      rw [h]

/-- C5 witness: with a 10 percent schedule row effective from the epoch,
one elapsed second on a 100-token stake accrues exactly 1/3153600. -/
theorem c5_witness_concrete_accrual :
    calculateRewardsStep [sch5] [pool3] stake3 1000 =
      some ({ stake3 with
              rewardsAccrued := 10 + 1 / 3153600
              lastRewardCalculation := 1000 }, 1 / 3153600) := by
  have h := (c5_accrual_formula_and_apr_selection [sch5] [pool3] stake3 1000).1
  rw [h]
  norm_num [getEffectiveApr, activeSchedules, pickLatest, sch5, pool3, stake3,
    List.filter, List.find?]

/-- Appending a matching element to a list without matches makes it the
find? result. -/
theorem find?_append_singleton {α : Type} (l : List α) (p : α → Bool) (a : α)
    (h : l.find? p = none) (hp : p a = true) : (l ++ [a]).find? p = some a := by
  rw [List.find?_append, h]
  simp [List.find?, hp]

/-- C6: a second submission with the idempotency key of an already
accepted request returns that request unchanged and leaves the state,
and in particular the set of withdrawal rows, untouched. -/
theorem c6_createRequest_idempotent (st : ApiState) (userId : String)
    (params : CreateRequestParams) (now1 : ℤ) (newId1 : String) (now2 : ℤ)
    (newId2 : String) (r1 : WithdrawalRequest) (st1 : ApiState)
    (h : createRequest st userId params now1 newId1 = .ok (r1, st1)) :
    createRequest st1 userId params now2 newId2 = .ok (r1, st1) := by
  unfold createRequest at h ⊢
  cases hfind : st.requests.find? (·.idempotencyKey == params.idempotencyKey) with
  | some existing =>
      rw [hfind] at h
      simp only [Except.ok.injEq, Prod.mk.injEq] at h
      obtain ⟨h1, h2⟩ := h
      subst h1
      subst h2
      rw [hfind]
  | none =>
      rw [hfind] at h
      dsimp only at h
      split at h
      · exact absurd h (by simp)
      · rename_i asset hasset
        split at h
        · exact absurd h (by simp)
        · rename_i hactive
          split at h
          · exact absurd h (by simp)
          · rename_i hnet
            split at h
            · exact absurd h (by simp)
            · rename_i hbal
              split at h
              · exact absurd h (by simp)
              · rename_i bal' hres
                simp only [Except.ok.injEq, Prod.mk.injEq] at h
                obtain ⟨hr1, hst1⟩ := h
                rw [← hst1]
                dsimp only
                rw [find?_append_singleton _ _ _ hfind (by simp)]
                rw [← hr1]

/-- C6 witness: resubmitting key k1, already held by the stored request,
returns that request and the unchanged state. -/
theorem c6_witness_resubmission_returns_existing :
    createRequest st6 "u1" p6 200 "id2" = .ok (wrExisting, st6) :=
  c6_createRequest_idempotent st6 "u1" p6 100 "id1" 200 "id2" wrExisting st6
    (by with_unfolding_all rfl)

/-- C7 amended: with 2FA enabled and a verified secret, login demands a
TOTP code (missing code is a bad request, invalid code an authorization
error, valid code a success), and the stored recovery codes play no role
in whether a login succeeds. -/
theorem c7_login_requires_totp (verifyTotp verifyPassword : String → String → Bool)
    (st : AuthSt) (dto : LoginDto) (now : ℤ) (user : User)
    (sec : TwoFactorSecretRow)
    (hfind : st.users.find? (·.email == dto.email.toLower) = some user)
    (hactive : user.isActive = true)
    (hpw : verifyPassword user.passwordHash dto.password = true)
    (h2fa : user.twoFactorEnabled = true)
    (hsec : st.twoFactorSecrets.find? (·.userId == user.id) = some sec)
    (hver : sec.isVerified = true) :
    (dto.totpCode = none →
        login verifyTotp verifyPassword st dto now =
          .error (.badRequest "2FA code required")) ∧
    (∀ code, dto.totpCode = some code → verifyTotp code sec.secret = false →
        login verifyTotp verifyPassword st dto now =
          .error (.unauthorized "Invalid 2FA code")) ∧
    (∀ code, dto.totpCode = some code → verifyTotp code sec.secret = true →
        login verifyTotp verifyPassword st dto now =
          .ok (user.id,
            { st with users := updateWhere st.users (·.id == user.id) fun u =>
                { u with lastLoginAt := some now } })) ∧
    (∀ rcs, resultOk (login verifyTotp verifyPassword
          { st with recoveryCodes := rcs } dto now) =
        resultOk (login verifyTotp verifyPassword st dto now)) := by
  have heval : ∀ st' : AuthSt, st'.users = st.users →
      st'.twoFactorSecrets = st.twoFactorSecrets →
      login verifyTotp verifyPassword st' dto now =
        (match dto.totpCode with
         | none => .error (.badRequest "2FA code required")
         | some code =>
             if verifyTotp code sec.secret then
               .ok (user.id,
                 { st' with users := updateWhere st'.users (·.id == user.id) fun u =>
                     { u with lastLoginAt := some now } })
             else .error (.unauthorized "Invalid 2FA code")) := by
    intro st' hu hs
    unfold login verifyToken
    rw [hu, hs, hfind]
    dsimp only
    rw [hsec]
    cases hcode : dto.totpCode with
    | none => simp [hactive, hpw, hver, h2fa]
    | some code =>
        cases hvt : verifyTotp code sec.secret <;>
          simp [hactive, hpw, hver, h2fa, hvt]
  refine ⟨?_, ?_, ?_, ?_⟩
  · intro hnone
    rw [heval st rfl rfl, hnone]
  · intro code hcode hvt
    rw [heval st rfl rfl, hcode]
    simp [hvt]
  · intro code hcode hvt
    rw [heval st rfl rfl, hcode]
    simp [hvt]
  · intro rcs
    rw [heval st rfl rfl, heval { st with recoveryCodes := rcs } rfl rfl]
    cases dto.totpCode with
    | none => rfl
    | some code => cases hvt : verifyTotp code sec.secret <;> simp [hvt, resultOk]

/-- C7 witness: with the currently valid TOTP code supplied, user7's
login succeeds and bumps lastLoginAt. -/
theorem c7_witness_valid_totp_login :
    login vt7 vp7 auth7 dto7ok 50 =
      .ok ("u1",
        { auth7 with users := updateWhere auth7.users (·.id == "u1") fun u =>
            { u with lastLoginAt := some 50 } }) :=
  (c7_login_requires_totp vt7 vp7 auth7 dto7ok 50 user7 secret7
      (by with_unfolding_all rfl) (by with_unfolding_all rfl)
      (by with_unfolding_all rfl) (by with_unfolding_all rfl)
      (by with_unfolding_all rfl) (by with_unfolding_all rfl)).2.2.1
    "123456" rfl (by with_unfolding_all rfl)

/-- A fired new-address indicator scores 30 or 50. -/
theorem checkNewAddress_score (st : FraudSt) (userId address chainId : String)
    (now : ℤ) (i : FraudIndicator)
    (h : checkNewAddress st userId address chainId now = some i) :
    i.score = 30 ∨ i.score = 50 := by
  unfold checkNewAddress at h
  split at h
  · cases h
    exact Or.inl rfl
  · split at h
    · cases h
      exact Or.inr rfl
    · cases h

/-- A fired large-amount indicator scores 40 or 20. -/
theorem checkLargeAmount_score (st : FraudSt) (amount : ℚ) (assetId : String)
    (i : FraudIndicator) (h : checkLargeAmount st amount assetId = some i) :
    i.score = 40 ∨ i.score = 20 := by
  unfold checkLargeAmount at h
  split at h
  · cases h
  · dsimp only at h
    split at h
    · split at h
      · cases h
        exact Or.inl rfl
      · cases h
        exact Or.inr rfl
    · cases h

/-- A fired velocity indicator scores 40 or 20. -/
theorem checkVelocity_score (st : FraudSt) (userId : String) (now : ℤ)
    (i : FraudIndicator) (h : checkVelocity st userId now = some i) :
    i.score = 40 ∨ i.score = 20 := by
  unfold checkVelocity at h
  dsimp only at h
  split at h
  · cases h
    exact Or.inl rfl
  · split at h
    · cases h
      exact Or.inr rfl
    · cases h

/-- A fired daily-limit indicator scores 50. -/
theorem checkDailyLimit_score (st : FraudSt) (userId : String) (newAmount : ℚ)
    (assetId : String) (now : ℤ) (i : FraudIndicator)
    (h : checkDailyLimit st userId newAmount assetId now = some i) : i.score = 50 := by
  unfold checkDailyLimit at h
  split at h
  · cases h
  · split at h
    · cases h
    · dsimp only at h
      split at h
      · cases h
        rfl
      · cases h

/-- C8 amended: a younger-than-7-days account always yields the
new-account indicator (MEDIUM, 25) and the analysis then contains no
score-15 indicator at all; the unverified-email indicator (LOW, 15) only
fires for accounts at least 7 days old; and totalScore is the sum of the
triggered indicators' scores. -/
theorem c8_new_account_shadows_unverified_email (st : FraudSt) (p : AnalyzeParams)
    (now : ℤ) (user : User)
    (hfind : st.users.find? (·.id == p.userId) = some user) :
    (((now - user.createdAt : ℤ) : ℚ) / (24 * 60 * 60 * 1000) < 7 →
        checkPatterns st p.userId now =
          some { type := .SUSPICIOUS_PATTERN, severity := .MEDIUM
                 description := "New account", score := 25 } ∧
        ∀ i ∈ (analyzeWithdrawalRequest st p now).indicators, i.score ≠ 15) ∧
    (7 ≤ ((now - user.createdAt : ℤ) : ℚ) / (24 * 60 * 60 * 1000) →
        user.emailVerified = false →
        checkPatterns st p.userId now =
          some { type := .SUSPICIOUS_PATTERN, severity := .LOW
                 description := "Email not verified", score := 15 }) ∧
    (analyzeWithdrawalRequest st p now).totalScore =
      ((analyzeWithdrawalRequest st p now).indicators.map (·.score)).sum := by
  refine ⟨?_, ?_, rfl⟩
  · intro hage
    have hpat : checkPatterns st p.userId now =
        some { type := .SUSPICIOUS_PATTERN, severity := .MEDIUM
               description := "New account", score := 25 } := by
      unfold checkPatterns
      rw [hfind]
      dsimp only
      rw [if_pos hage]
    refine ⟨hpat, ?_⟩
    intro i hi
    unfold analyzeWithdrawalRequest at hi
    dsimp only at hi
    rw [List.mem_filterMap] at hi
    obtain ⟨o, ho, hoi⟩ := hi
    simp only [id] at hoi
    subst hoi
    simp only [List.mem_cons, List.mem_singleton, List.not_mem_nil, or_false] at ho
    rcases ho with ho | ho | ho | ho | ho
    · rcases checkNewAddress_score st p.userId p.destinationAddress p.chainId now i
        ho.symm with hs | hs <;> simp [hs]
    · rcases checkLargeAmount_score st p.amount p.assetId i ho.symm with hs | hs <;>
        simp [hs]
    · rcases checkVelocity_score st p.userId now i ho.symm with hs | hs <;>
        simp [hs]
    · have := checkDailyLimit_score st p.userId p.amount p.assetId now i ho.symm
      simp [this]
    · rw [← ho] at hpat
      cases hpat
      simp
  · intro hage hemail
    unfold checkPatterns
    rw [hfind]
    dsimp only
    rw [if_neg (not_lt.mpr hage), if_pos (by simp [hemail])]

/-- C8 witness: the 3-day-old, unverified-email user u1 gets exactly the
new-account indicator from the pattern check. -/
theorem c8_witness_new_account_indicator :
    checkPatterns fr8 "u1" now8 =
      some { type := .SUSPICIOUS_PATTERN, severity := .MEDIUM
             description := "New account", score := 25 } :=
  ((c8_new_account_shadows_unverified_email fr8 p8 now8 user8
      (by with_unfolding_all rfl)).1 (by norm_num [user8, now8])).1

/-- Appending one entry extends the matching-amount list by that entry's
amount when it matches and leaves it unchanged otherwise. -/
theorem entryAmounts_append (l : List LedgerEntry) (e : LedgerEntry)
    (t : LedgerEntryType) (refId : String) :
    entryAmounts (l ++ [e]) t refId =
      entryAmounts l t refId ++
        (if e.entryType == t && e.referenceId == refId then [e.amount] else []) := by
  unfold entryAmounts
  rw [List.filter_append, List.map_append]
  congr 1
  by_cases h : e.entryType == t && e.referenceId == refId <;>
    simp [List.filter, h]

/-- C4 amended: for identical position data and clock, the direct unstake
and the background sweep post the same UNSTAKE_COMPLETED amount
(principal plus total rewards) and the same available delta, but the
direct path decrements the staked bucket by principal plus rewards and
leaves rewardsAccrued unchanged, whereas the sweep decrements staked by
the principal and rewardsAccrued by the prior accrued value. -/
theorem c4_direct_and_sweep_finalization_effects (stake : StakePosition) (pool : Pool)
    (schedules : List AprSchedule) (bal : Bal) (n : ℕ) (now : ℤ)
    (hstatus : stake.status = .ACTIVE) (hlock : stake.lockedUntil = none)
    (hcool : pool.cooldownHours = 0) (hpool : pool.id = stake.poolId)
    (hpos : 0 < unstakeTotal schedules [pool] stake now) :
    ((unstake (StakeState.mk [stake] [pool] schedules bal n)
          stake.userId stake.id now).toOption.map
        fun r =>
          (r.2.bal.cache (stakeBalKey stake pool),
           entryAmounts r.2.bal.ledger .UNSTAKE_COMPLETED stake.id)) =
      some
        ({ bal.cache (stakeBalKey stake pool) with
             available := (bal.cache (stakeBalKey stake pool)).available +
               unstakeTotal schedules [pool] stake now,
             staked := (bal.cache (stakeBalKey stake pool)).staked -
               unstakeTotal schedules [pool] stake now },
         entryAmounts bal.ledger .UNSTAKE_COMPLETED stake.id ++
           [unstakeTotal schedules [pool] stake now]) ∧
    (processUnstakingPosition
          (StakeState.mk [{ stake with status := .UNSTAKING, cooldownEndsAt := some now }]
            [pool] schedules bal n)
          { stake with status := .UNSTAKING, cooldownEndsAt := some now }
          now).bal.cache (stakeBalKey stake pool) =
      { bal.cache (stakeBalKey stake pool) with
          available := (bal.cache (stakeBalKey stake pool)).available +
            unstakeTotal schedules [pool] stake now,
          staked := (bal.cache (stakeBalKey stake pool)).staked - stake.amount,
          rewardsAccrued := (bal.cache (stakeBalKey stake pool)).rewardsAccrued -
            stake.rewardsAccrued } ∧
    entryAmounts
        (processUnstakingPosition
          (StakeState.mk [{ stake with status := .UNSTAKING, cooldownEndsAt := some now }]
            [pool] schedules bal n)
          { stake with status := .UNSTAKING, cooldownEndsAt := some now }
          now).bal.ledger .UNSTAKE_COMPLETED stake.id =
      entryAmounts bal.ledger .UNSTAKE_COMPLETED stake.id ++
        [unstakeTotal schedules [pool] stake now] := by
  have hfindStake : [stake].find? (·.id == stake.id) = some stake := by
    simp [List.find?]
  have hfindPool : [pool].find? (·.id == stake.poolId) = some pool := by
    simp [List.find?, hpool]
  refine ⟨?_, ?_, ?_⟩
  · unfold unstake
    rw [hfindStake]
    dsimp only
    rw [hfindPool]
    dsimp only
    rw [if_neg (by simp), if_neg (by simp [hstatus]), if_neg (by simp [hlock]),
      if_neg (by simp [hcool])]
    unfold unstakeToBalance createEntry
    rw [if_neg (not_le.mpr (by simpa [unstakeTotal] using hpos))]
    dsimp only [Except.toOption, Option.map]
    unfold stakeBalKey
    rw [entryAmounts_append]
    simp [updateCache, unstakeTotal]
  · unfold processUnstakingPosition
    dsimp only
    rw [hfindPool]
    dsimp only
    unfold stakeBalKey
    simp [updateCache, unstakeTotal, calculateAccruedRewards]
  · unfold processUnstakingPosition
    dsimp only
    rw [hfindPool]
    dsimp only
    rw [entryAmounts_append]
    simp [unstakeTotal, calculateAccruedRewards]

/-- C4 witness: sweeping stake3's UNSTAKING twin (principal 100, prior
rewards 10, zero APR) leaves the projection at available 110, staked 0,
rewardsAccrued 0. -/
theorem c4_witness_sweep_projection :
    (processUnstakingPosition
        (StakeState.mk [{ stake3 with status := .UNSTAKING, cooldownEndsAt := some 1000 }]
          [pool3] [] bal3 0)
        { stake3 with status := .UNSTAKING, cooldownEndsAt := some 1000 } 1000).bal.cache
      (stakeBalKey stake3 pool3) =
    { available := 110, staked := 0, rewardsAccrued := 0, withdrawalsPending := 0 } := by
  have h := (c4_direct_and_sweep_finalization_effects stake3 pool3 [] bal3 0 1000
    rfl rfl rfl rfl
    (by norm_num [unstakeTotal, calculateAccruedRewards, getEffectiveApr,
      activeSchedules, pickLatest, stake3, pool3, List.find?])).2.1
  rw [h]
  norm_num [bal3, stakeBalKey, stake3, pool3, asset1, bk1, unstakeTotal,
    calculateAccruedRewards, getEffectiveApr, activeSchedules, pickLatest, List.find?,
    BalRow.zero]

end CryptoStake
